import Mathlib

/-!
Verification of the task-store and filter/metrics logic of the
streamlit-todo-app repository (src/todo_app.py), as a shallow embedding.

Modelling notes, traced to the source:
* A task row mirrors the `tasks` table schema created in `create_table`
  (todo_app.py lines 24-34): `id` is the integer primary key, `title` is
  `TEXT NOT NULL`, `description` is nullable `TEXT` (hence `Option String`),
  `priority`, `due_date` and `status` are text, `created_at` a timestamp.
  SQLite stores the Python `date` objects as ISO `YYYY-MM-DD` strings
  (the UI parses them back with `strptime('%Y-%m-%d')`, line 190), so
  `due_date` is a `String` and `ORDER BY due_date ASC` is the binary
  (lexicographic) string order.
* The store is the list of rows plus the AUTOINCREMENT counter: ids are
  assigned in insertion order and never reused, even after deletes.
* `add_task` (lines 41-48) runs a plain INSERT with status "Pending" and
  returns `cur.lastrowid`. It performs no emptiness check on the title;
  the `NOT NULL` constraint rejects only SQL NULL, and every caller passes
  a Python `str`, so the insert always succeeds — also for the empty
  string. The `description` argument is always the `str` from the UI
  text area, so the stored value is `some description`.
* `view_all_tasks` (lines 50-55) is `SELECT * FROM tasks ORDER BY
  due_date ASC`, modelled as a (stable) insertion sort on `due_date`.
* `update_task_status` / `update_task_details` (lines 57-76) are SQL
  UPDATEs with `WHERE id = ?`, modelled as a map touching exactly the
  rows with the matching id; `delete_task` (lines 79-84) is a DELETE,
  modelled as a filter.
* The dashboard metrics (lines 151-166) and the search/priority/status
  filters (lines 173-179) live in `main`; they are embedded as the pure
  functions below. Python floats are modelled as exact rationals.
* The search filter (line 175) evaluates
  `q.lower() in t[1].lower() or q.lower() in t[2].lower()`; when the
  description `t[2]` is NULL (Python `None`) and the title does not match
  (so `or` does not short-circuit), `None.lower()` raises an
  AttributeError. The embedding returns `Option` results: `none` models
  that exception.
-/

namespace TodoApp

/-- A row of the `tasks` table (todo_app.py, `create_table`). -/
structure Task where
  id : Nat
  title : String
  description : Option String
  priority : String
  due_date : String
  status : String
  created_at : String
  deriving Repr, DecidableEq

/-- The persistent state: the rows of the `tasks` table together with the
AUTOINCREMENT counter that assigns the next primary key. -/
structure Store where
  tasks : List Task
  next_id : Nat
  deriving Repr, DecidableEq

/-- A fresh database: no rows, AUTOINCREMENT starts at 1. -/
def emptyStore : Store := ⟨[], 1⟩

/-- `add_task` (todo_app.py lines 41-48): INSERT a new row with status
"Pending" and the server-assigned creation timestamp `now`; returns
`cur.lastrowid` together with the new store. There is no emptiness check:
`NOT NULL` rejects only SQL NULL and the title argument is always a
Python `str`. -/
def add_task (s : Store) (title description priority due_date now : String) :
    Nat × Store :=
  let t : Task :=
    { id := s.next_id, title := title, description := some description,
      priority := priority, due_date := due_date, status := "Pending",
      created_at := now }
  (s.next_id, ⟨s.tasks ++ [t], s.next_id + 1⟩)

/-- The "Add a New Task" form handler (todo_app.py line 138):
`if submitted and new_title: add_task(...)`. A Python `str` is truthy
iff non-empty, so the store mutation is skipped for an empty title; the
id returned by `add_task` is discarded. -/
def submit_add_form (s : Store) (submitted : Bool)
    (new_title new_desc new_priority new_due_date now : String) : Store :=
  if submitted && !(new_title == "") then
    (add_task s new_title new_desc new_priority new_due_date now).2
  else s

/-- The `ORDER BY due_date ASC` comparison: binary string order on the
ISO date strings. -/
def dueLe (a b : Task) : Prop := a.due_date ≤ b.due_date

instance : DecidableRel dueLe := fun a b =>
  inferInstanceAs (Decidable (a.due_date ≤ b.due_date))

instance : IsTotal Task dueLe := ⟨fun a b => le_total a.due_date b.due_date⟩

instance : IsTrans Task dueLe := ⟨fun _ _ _ hab hbc => le_trans hab hbc⟩

/-- `view_all_tasks` (todo_app.py lines 50-55):
`SELECT * FROM tasks ORDER BY due_date ASC`, modelled as a stable sort of
the rows by due date. -/
def view_all_tasks (s : Store) : List Task :=
  List.insertionSort dueLe s.tasks

/-- `update_task_status` (todo_app.py lines 57-64): `UPDATE tasks SET
status = ? WHERE id = ?` — sets the status of every row whose id matches
and leaves every other row untouched. -/
def update_task_status (s : Store) (task_id : Nat) (status : String) : Store :=
  ⟨s.tasks.map (fun t => if t.id = task_id then { t with status := status } else t),
   s.next_id⟩

/-- `update_task_details` (todo_app.py lines 66-76): `UPDATE tasks SET
title, description, priority, due_date WHERE id = ?` — overwrites the four
editable fields of the matching row; `status`, `id` and `created_at` are
not in the SET list. The description argument is the `str` from the edit
form, stored as `some description`. -/
def update_task_details (s : Store) (task_id : Nat)
    (title description priority due_date : String) : Store :=
  ⟨s.tasks.map (fun t =>
      if t.id = task_id then
        { t with title := title, description := some description,
                 priority := priority, due_date := due_date }
      else t),
   s.next_id⟩

/-- `delete_task` (todo_app.py lines 79-84): `DELETE FROM tasks WHERE
id=?` — keeps exactly the rows whose id differs. -/
def delete_task (s : Store) (task_id : Nat) : Store :=
  ⟨s.tasks.filter (fun t => !(t.id == task_id)), s.next_id⟩

/-- Dashboard metric (todo_app.py line 151):
`sum(1 for task in all_tasks if task[5] == "Pending")`. -/
def pending_tasks_count (tasks : List Task) : Nat :=
  (tasks.filter (fun t => t.status == "Pending")).length

/-- Dashboard metric (todo_app.py line 152):
`len(all_tasks) - pending_tasks_count`. -/
def completed_tasks_count (tasks : List Task) : Nat :=
  tasks.length - pending_tasks_count tasks

/-- Dashboard metric (todo_app.py line 153): `len(all_tasks)`. -/
def total_tasks (tasks : List Task) : Nat := tasks.length

/-- Dashboard metric (todo_app.py lines 160-166): the displayed completion
rate, `(completed_tasks_count / total_tasks) * 100` when there are tasks
and `0` otherwise, with Python float arithmetic modelled exactly in ℚ. -/
def completion_rate (tasks : List Task) : ℚ :=
  if total_tasks tasks > 0 then
    ((completed_tasks_count tasks : ℚ) / (total_tasks tasks : ℚ)) * 100
  else 0

/-- `needle` starts the list `haystack` (character-by-character match). -/
def startsWithChars : List Char → List Char → Bool
  | [], _ => true
  | _ :: _, [] => false
  | a :: as, b :: bs => a == b && startsWithChars as bs

/-- `needle` occurs contiguously somewhere in `haystack`. -/
def hasSubChars (needle : List Char) : List Char → Bool
  | [] => startsWithChars needle []
  | b :: bs => startsWithChars needle (b :: bs) || hasSubChars needle bs

/-- Python's `s.lower()`, character by character (the app's strings are
ASCII, where `Char.toLower` and Python agree). -/
def lowerChars (s : String) : List Char := s.toList.map Char.toLower

/-- The Python test `needle.lower() in haystack.lower()`: case-insensitive
substring occurrence. -/
def pyStrIn (needle haystack : String) : Bool :=
  hasSubChars (lowerChars needle) (lowerChars haystack)

/-- One task's test in the search comprehension (todo_app.py line 175):
`search_query.lower() in t[1].lower() or search_query.lower() in
t[2].lower()`. Python `or` short-circuits, so the description is only
touched when the title does not match; `None.lower()` raises an
AttributeError, modelled as `none`. -/
def search_step (q : String) (t : Task) : Option Bool :=
  if pyStrIn q t.title then some true
  else
    match t.description with
    | none => none
    | some d => some (pyStrIn q d)

/-- The search list comprehension (todo_app.py line 175), evaluated left
to right; the first AttributeError aborts it with no result. -/
def filter_search_list (q : String) : List Task → Option (List Task)
  | [] => some []
  | t :: ts =>
    match search_step q t with
    | none => none
    | some b =>
      match filter_search_list q ts with
      | none => none
      | some l => some (if b then t :: l else l)

/-- The search filter (todo_app.py lines 174-175): applied only when
`search_query` is truthy, i.e. non-empty. -/
def search_filter (q : String) (tasks : List Task) : Option (List Task) :=
  if q = "" then some tasks else filter_search_list q tasks

/-- Modelled from the spec: "Text search: case-insensitive substring
match against title OR description" — the per-task predicate the spec
describes, total on an absent description (only the title can match).
Used to compare the code's filter against the specified one. -/
def spec_search_match (q : String) (t : Task) : Bool :=
  pyStrIn q t.title ||
    (match t.description with
     | some d => pyStrIn q d
     | none => false)

/-- The priority filter (todo_app.py lines 176-177): applied only when
the selection differs from "All". -/
def priority_filter (p : String) (tasks : List Task) : List Task :=
  if p = "All" then tasks else tasks.filter (fun t => t.priority == p)

/-- The status filter (todo_app.py lines 178-179): applied only when the
selection differs from "All". -/
def status_filter (f : String) (tasks : List Task) : List Task :=
  if f = "All" then tasks else tasks.filter (fun t => t.status == f)

/-- The full filter pipeline computing `tasks_to_display`
(todo_app.py lines 173-179): search, then priority, then status. -/
def tasks_to_display (q p f : String) (tasks : List Task) :
    Option (List Task) :=
  match search_filter q tasks with
  | none => none
  | some l => some (status_filter f (priority_filter p l))

/-! ### Concrete rows used to exercise the theorems -/

/-- A pending task with a present description. -/
def wTask1 : Task :=
  ⟨1, "Buy milk", some "2 liters", "Low", "2099-01-01", "Pending",
   "2025-01-01 00:00:00"⟩

/-- A second pending task, high priority, present description. -/
def wTask2 : Task :=
  ⟨2, "Write report", some "quarterly numbers", "High", "2099-02-01",
   "Pending", "2025-01-02 00:00:00"⟩

/-- A completed task with a present description. -/
def doneTask : Task :=
  ⟨5, "Pay bills", some "rent and power", "Medium", "2099-03-01",
   "Completed", "2025-01-03 00:00:00"⟩

/-- A two-row store whose AUTOINCREMENT counter is 3. -/
def wStore : Store := ⟨[wTask1, wTask2], 3⟩

/-- A row whose nullable description column is NULL. -/
def noDescTask8 : Task :=
  ⟨7, "alpha", none, "Low", "2099-01-01", "Pending", "2025-01-01 00:00:00"⟩

/-- A NULL-description row with priority High. -/
def noDescTask9 : Task :=
  ⟨8, "alpha", none, "High", "2099-01-01", "Pending", "2025-01-01 00:00:00"⟩

/-- A NULL-description row used for the totality claim. -/
def noDescTask10 : Task :=
  ⟨9, "beta", none, "Medium", "2099-01-01", "Pending", "2025-01-01 00:00:00"⟩

/-! ### Helper lemmas -/

/-- Sorting for display does not change which rows are present. -/
theorem mem_view_all {t : Task} {s : Store} :
    t ∈ view_all_tasks s ↔ t ∈ s.tasks :=
  (List.perm_insertionSort dueLe s.tasks).mem_iff

/-- The empty needle occurs in every character list. -/
theorem hasSubChars_nil_needle (l : List Char) : hasSubChars [] l = true := by
  cases l with
  | nil => rfl
  | cons b bs => simp [hasSubChars, startsWithChars]

/-- The empty string is a substring of every string. -/
theorem pyStrIn_empty (s : String) : pyStrIn "" s = true := by
  have h : lowerChars "" = [] := rfl
  simp [pyStrIn, h, hasSubChars_nil_needle]

/-- Every task matches the empty search query. -/
theorem spec_search_match_nil (t : Task) : spec_search_match "" t = true := by
  simp [spec_search_match, pyStrIn_empty]

/-- On a row with a present description, the comprehension's per-task test
evaluates without error and agrees with the specified predicate. -/
theorem search_step_of_desc (q : String) (t : Task)
    (h : t.description ≠ none) :
    search_step q t = some (spec_search_match q t) := by
  match hd : t.description with
  | none => exact absurd hd h
  | some d =>
    unfold search_step spec_search_match
    rw [hd]
    by_cases hq : pyStrIn q t.title = true
    · simp [hq]
    · simp [hq]

/-- On a list of rows with present descriptions, the comprehension
returns exactly the rows matching the specified predicate. -/
theorem filter_search_list_spec (q : String) (ts : List Task)
    (h : ∀ t ∈ ts, t.description ≠ none) :
    filter_search_list q ts = some (ts.filter (spec_search_match q)) := by
  induction ts with
  | nil => rfl
  | cons t ts ih =>
    have ht := h t (List.mem_cons_self t ts)
    have hts := ih (fun u hu => h u (List.mem_cons_of_mem t hu))
    simp only [filter_search_list, search_step_of_desc q t ht, hts]
    by_cases hb : spec_search_match q t = true
    · simp [List.filter_cons, hb]
    · simp [List.filter_cons, hb]

/-- The search filter, on rows with present descriptions, returns exactly
the rows matching the specified predicate (also when the query is empty
and no filtering happens). -/
theorem search_filter_spec (q : String) (tasks : List Task)
    (h : ∀ t ∈ tasks, t.description ≠ none) :
    search_filter q tasks = some (tasks.filter (spec_search_match q)) := by
  unfold search_filter
  by_cases hq : q = ""
  · subst hq
    rw [if_pos rfl, List.filter_eq_self.mpr (fun t _ => spec_search_match_nil t)]
  · rw [if_neg hq, filter_search_list_spec q tasks h]

/-! ### Claim theorems -/

/-- Claim C1, counterexample: calling the store-level add with an empty
title does not fail — on a fresh store it inserts a row and returns id 1,
refuting "no new task is inserted into the store and no id is returned". -/
theorem C1_counterexample :
    (add_task emptyStore "" "milk run" "Low" "2099-01-01"
        "2025-01-01 00:00:00").1 = 1 ∧
    (add_task emptyStore "" "milk run" "Low" "2099-01-01"
        "2025-01-01 00:00:00").2.tasks.length = 1 :=
  ⟨rfl, rfl⟩

/-- Claim C1 (amended): the store-level `add_task` does not reject an
empty title — the empty string satisfies the `NOT NULL` constraint, so the
row is inserted and its id returned; only the UI form handler skips the
add when the title is empty, so submitting the form with an empty title
leaves the store unchanged. -/
theorem C1_empty_title_add :
    (∀ (s : Store) (d p dd now : String),
      (add_task s "" d p dd now).1 = s.next_id ∧
      (add_task s "" d p dd now).2.tasks =
        s.tasks ++ [{ id := s.next_id, title := "", description := some d,
                      priority := p, due_date := dd, status := "Pending",
                      created_at := now }]) ∧
    (∀ (s : Store) (d p dd now : String),
      submit_add_form s true "" d p dd now = s) := by
  constructor
  · intro s d p dd now
    exact ⟨rfl, rfl⟩
  · intro s d p dd now
    simp [submit_add_form]

/-- Claim C2: the completion-rate metric is 0 when the total count is 0,
equals the completed count divided by the total count (expressed in
percent, as the code and the 50.0 example fix the scale) otherwise, and
is 50 for a list of two tasks of which exactly one is completed. -/
theorem C2_completion_rate :
    (∀ tasks : List Task, total_tasks tasks = 0 → completion_rate tasks = 0) ∧
    (∀ tasks : List Task, total_tasks tasks ≠ 0 →
      completion_rate tasks =
        (completed_tasks_count tasks : ℚ) / (total_tasks tasks : ℚ) * 100) ∧
    (∀ t1 t2 : Task, t1.status = "Completed" → t2.status = "Pending" →
      completion_rate [t1, t2] = 50) := by
  refine ⟨?_, ?_, ?_⟩
  · intro tasks h
    simp [completion_rate, h]
  · intro tasks h
    rw [completion_rate, if_pos (Nat.pos_of_ne_zero h)]
  · intro t1 t2 h1 h2
    have hb1 : (t1.status == "Pending") = false := by
      rw [h1]; decide
    have hb2 : (t2.status == "Pending") = true := by
      rw [h2]; decide
    simp [completion_rate, total_tasks, completed_tasks_count,
      pending_tasks_count, List.filter_cons, hb1, hb2]
    norm_num

/-- Witness for C2 at concrete inputs: the empty list and a two-task list
with one completed task. -/
theorem C2_witness :
    completion_rate ([] : List Task) = 0 ∧
    completion_rate [doneTask, wTask1] =
      (completed_tasks_count [doneTask, wTask1] : ℚ) /
        (total_tasks [doneTask, wTask1] : ℚ) * 100 ∧
    completion_rate [doneTask, wTask1] = 50 :=
  ⟨C2_completion_rate.1 [] rfl,
   C2_completion_rate.2.1 [doneTask, wTask1] (by decide),
   C2_completion_rate.2.2 doneTask wTask1 rfl rfl⟩

/-- Claim C3: after adding a task with a non-empty title, `view_all_tasks`
contains a task with the returned id whose status is Pending and whose
title, description, priority and due date equal the supplied values. -/
theorem C3_add_then_list_all (s : Store)
    (title description priority due_date now : String) (h : title ≠ "") :
    ∃ t, t ∈ view_all_tasks (add_task s title description priority due_date now).2 ∧
      t.id = (add_task s title description priority due_date now).1 ∧
      t.status = "Pending" ∧ t.title = title ∧
      t.description = some description ∧
      t.priority = priority ∧ t.due_date = due_date := by
  refine ⟨{ id := s.next_id, title := title, description := some description,
            priority := priority, due_date := due_date, status := "Pending",
            created_at := now }, ?_, rfl, rfl, rfl, rfl, rfl, rfl⟩
  rw [mem_view_all]
  simp [add_task]

/-- Witness for C3: adding "Buy milk" to the empty store. -/
theorem C3_witness :
    ∃ t, t ∈ view_all_tasks (add_task emptyStore "Buy milk" "2 liters" "Low"
        "2099-01-01" "2025-01-01 00:00:00").2 ∧
      t.id = (add_task emptyStore "Buy milk" "2 liters" "Low"
        "2099-01-01" "2025-01-01 00:00:00").1 ∧
      t.status = "Pending" ∧ t.title = "Buy milk" ∧
      t.description = some "2 liters" ∧
      t.priority = "Low" ∧ t.due_date = "2099-01-01" :=
  C3_add_then_list_all emptyStore "Buy milk" "2 liters" "Low" "2099-01-01"
    "2025-01-01 00:00:00" (by decide)

/-- Claim C4: for every store state, `view_all_tasks` returns exactly the
tasks in the store (a permutation of them, so insertion order is
irrelevant) and the returned sequence is sorted by due date ascending. -/
theorem C4_list_all_sorted (s : Store) :
    (view_all_tasks s).Perm s.tasks ∧
    (view_all_tasks s).Pairwise (fun a b => a.due_date ≤ b.due_date) :=
  ⟨List.perm_insertionSort dueLe s.tasks,
   List.sorted_insertionSort dueLe s.tasks⟩

/-- Claim C5: when the store contains a task with the given id, setting
its status to "Completed" updates exactly that row — only the status
field changes — and every row at every other position is unchanged
(stated position by position over the row list). -/
theorem C5_update_status_frame (s : Store) (tid : Nat)
    (h : ∃ t ∈ s.tasks, t.id = tid) :
    (∃ t ∈ s.tasks, t.id = tid ∧
      { t with status := "Completed" } ∈
        (update_task_status s tid "Completed").tasks) ∧
    ∀ i : Nat,
      (update_task_status s tid "Completed").tasks[i]? =
        (s.tasks[i]?).map (fun t =>
          if t.id = tid then { t with status := "Completed" } else t) := by
  obtain ⟨t, ht, hid⟩ := h
  constructor
  · refine ⟨t, ht, hid, ?_⟩
    simp only [update_task_status]
    exact List.mem_map.mpr ⟨t, ht, by rw [if_pos hid]⟩
  · intro i
    simp [update_task_status, List.getElem?_map]

/-- Witness for C5: completing task 1 in the two-task store. -/
theorem C5_witness :
    (∃ t ∈ wStore.tasks, t.id = 1 ∧
      { t with status := "Completed" } ∈
        (update_task_status wStore 1 "Completed").tasks) ∧
    ∀ i : Nat,
      (update_task_status wStore 1 "Completed").tasks[i]? =
        (wStore.tasks[i]?).map (fun t =>
          if t.id = 1 then { t with status := "Completed" } else t) :=
  C5_update_status_frame wStore 1 (by decide)

/-- Claim C6: when the store contains a task with the given id,
`update_task_details` overwrites exactly the title, description, priority
and due date of that row — status, id and creation timestamp stay — and
every row at every other position is unchanged. -/
theorem C6_update_details_frame (s : Store) (tid : Nat)
    (title description priority due_date : String)
    (h : ∃ t ∈ s.tasks, t.id = tid) :
    (∃ t ∈ s.tasks, t.id = tid ∧
      { t with title := title, description := some description,
               priority := priority, due_date := due_date } ∈
        (update_task_details s tid title description priority due_date).tasks) ∧
    ∀ i : Nat,
      (update_task_details s tid title description priority due_date).tasks[i]? =
        (s.tasks[i]?).map (fun t =>
          if t.id = tid then
            { t with title := title, description := some description,
                     priority := priority, due_date := due_date }
          else t) := by
  obtain ⟨t, ht, hid⟩ := h
  constructor
  · refine ⟨t, ht, hid, ?_⟩
    simp only [update_task_details]
    exact List.mem_map.mpr ⟨t, ht, by rw [if_pos hid]⟩
  · intro i
    simp [update_task_details, List.getElem?_map]

/-- Witness for C6: editing task 2 in the two-task store. -/
theorem C6_witness :
    (∃ t ∈ wStore.tasks, t.id = 2 ∧
      { t with title := "Write final report", description := some "v2",
               priority := "Medium", due_date := "2099-04-01" } ∈
        (update_task_details wStore 2 "Write final report" "v2" "Medium"
          "2099-04-01").tasks) ∧
    ∀ i : Nat,
      (update_task_details wStore 2 "Write final report" "v2" "Medium"
          "2099-04-01").tasks[i]? =
        (wStore.tasks[i]?).map (fun t =>
          if t.id = 2 then
            { t with title := "Write final report", description := some "v2",
                     priority := "Medium", due_date := "2099-04-01" }
          else t) :=
  C6_update_details_frame wStore 2 "Write final report" "v2" "Medium"
    "2099-04-01" (by decide)

/-- Claim C7: when the store contains a task with the given id, after
deleting that id no task with it appears in `view_all_tasks`, and a task
appears in `view_all_tasks` exactly when it is a task of the old store
with a different id (so every other task still appears unchanged). -/
theorem C7_delete_removes (s : Store) (tid : Nat)
    (h : ∃ t ∈ s.tasks, t.id = tid) :
    (∀ t ∈ view_all_tasks (delete_task s tid), t.id ≠ tid) ∧
    ∀ t : Task, t ∈ view_all_tasks (delete_task s tid) ↔
      t ∈ s.tasks ∧ t.id ≠ tid := by
  have key : ∀ t : Task, t ∈ view_all_tasks (delete_task s tid) ↔
      t ∈ s.tasks ∧ t.id ≠ tid := by
    intro t
    rw [mem_view_all]
    simp [delete_task, List.mem_filter]
  exact ⟨fun t ht => ((key t).mp ht).2, key⟩

/-- Witness for C7: deleting task 1 from the two-task store. -/
theorem C7_witness :
    (∀ t ∈ view_all_tasks (delete_task wStore 1), t.id ≠ 1) ∧
    ∀ t : Task, t ∈ view_all_tasks (delete_task wStore 1) ↔
      t ∈ wStore.tasks ∧ t.id ≠ 1 :=
  C7_delete_removes wStore 1 (by decide)

/-- Claim C8, counterexample: on a list holding one task whose nullable
description is NULL and whose title does not contain the query "b", the
code's search filter aborts with an AttributeError (`None.lower()`)
instead of returning the matching subset (here the empty list). -/
theorem C8_counterexample :
    search_filter "b" [noDescTask8] ≠
      some (List.filter (spec_search_match "b") [noDescTask8]) := by
  decide

/-- Claim C8 (amended): for every search query and every task list in
which each task's description is present, the text-search filter returns
exactly those tasks in which the query occurs as a case-insensitive
substring of the title or of the description. -/
theorem C8_search_filter_exact (q : String) (tasks : List Task)
    (h : ∀ t ∈ tasks, t.description ≠ none) :
    search_filter q tasks = some (tasks.filter (spec_search_match q)) :=
  search_filter_spec q tasks h

/-- Witness for C8: searching "milk" in the two-task store's rows. -/
theorem C8_witness :
    search_filter "milk" [wTask1, wTask2] =
      some (List.filter (spec_search_match "milk") [wTask1, wTask2]) :=
  C8_search_filter_exact "milk" [wTask1, wTask2] (by decide)

/-- Claim C9, counterexample: combining the search query "z" with the
priority filter "High" on a list holding one High-priority task whose
description is NULL and whose title does not contain "z" aborts with an
AttributeError instead of returning the tasks satisfying both
conditions (here none). -/
theorem C9_counterexample :
    tasks_to_display "z" "High" "All" [noDescTask9] ≠
      some (List.filter
        (fun t => spec_search_match "z" t && (t.priority == "High"))
        [noDescTask9]) := by
  decide

/-- Claim C9 (amended): filtering by priority "High" returns exactly the
High-priority subset of any task list, and, on every task list whose
descriptions are all present, applying a search query together with the
priority filter returns exactly the tasks satisfying both conditions —
the filters compose with logical AND. -/
theorem C9_filters_compose (q : String) (tasks : List Task) :
    priority_filter "High" tasks =
      tasks.filter (fun t => t.priority == "High") ∧
    ((∀ t ∈ tasks, t.description ≠ none) →
      tasks_to_display q "High" "All" tasks =
        some (tasks.filter
          (fun t => spec_search_match q t && (t.priority == "High")))) := by
  constructor
  · rw [priority_filter, if_neg (by decide)]
  · intro h
    simp only [tasks_to_display, search_filter_spec q tasks h, status_filter,
      if_pos, priority_filter]
    rw [List.filter_filter]
    refine congrArg some (List.filter_congr ?_)
    intro t _
    rw [Bool.and_comm]

/-- Witness for C9: query "report" with priority "High" on the two-task
store's rows. -/
theorem C9_witness :
    priority_filter "High" [wTask1, wTask2] =
      List.filter (fun t => t.priority == "High") [wTask1, wTask2] ∧
    tasks_to_display "report" "High" "All" [wTask1, wTask2] =
      some (List.filter
        (fun t => spec_search_match "report" t && (t.priority == "High"))
        [wTask1, wTask2]) :=
  ⟨(C9_filters_compose "report" [wTask1, wTask2]).1,
   (C9_filters_compose "report" [wTask1, wTask2]).2 (by decide)⟩

/-- Claim C10, counterexample: the text-search filter is not total — on a
task whose nullable description is NULL and whose title does not contain
the non-empty query "q", it aborts with an AttributeError (modelled as
returning no result) rather than returning a list. -/
theorem C10_counterexample : search_filter "q" [noDescTask10] = none := by
  decide

/-- Claim C10 (amended): for every search query (so in particular every
non-empty one) the filter never errors on a task list whose descriptions
are all present; but for a non-empty query, on a task whose description
is absent and whose lowered title does not contain the lowered query, it
raises an AttributeError (no result). -/
theorem C10_search_total (q : String) :
    (∀ tasks : List Task, (∀ t ∈ tasks, t.description ≠ none) →
      (search_filter q tasks).isSome = true) ∧
    (q ≠ "" → ∀ t : Task, t.description = none → pyStrIn q t.title = false →
      search_filter q [t] = none) := by
  constructor
  · intro tasks h
    rw [search_filter_spec q tasks h]
    rfl
  · intro hq t hd hm
    have hstep : search_step q t = none := by
      simp [search_step, hm, hd]
    rw [search_filter, if_neg hq]
    simp [filter_search_list, hstep]

/-- Witness for C10: the query "milk" succeeds on the two-task rows; the
query "zzz" errors on the NULL-description row. -/
theorem C10_witness :
    (search_filter "milk" [wTask1, wTask2]).isSome = true ∧
    search_filter "zzz" [noDescTask10] = none :=
  ⟨(C10_search_total "milk").1 [wTask1, wTask2] (by decide),
   (C10_search_total "zzz").2 (by decide) noDescTask10 rfl (by decide)⟩

end TodoApp
